import Mathlib

/-!
Verification of the m.Stock FastAPI gateway (src/src/main.py, src/src/models.py,
src/src/security.py) against its natural-language specification.

The Python source is shallowly embedded: timestamps are naturals (epoch
seconds), floats that only carry timestamps or prices are modelled as
naturals, fallible broker calls are `Except String` values (the `String` is
the exception message), and the filesystem backing the token cache is an
optional file content.  The conversion from an epoch timestamp to a
server-local calendar day (`datetime.fromtimestamp(ts).date()`) is kept
abstract as a parameter `dateOf : Nat -> Nat`; `epochDay` is the concrete
instance used for evaluation (UTC, no offset).
-/

namespace MStock

/-- Concrete calendar-day function used on concrete inputs: the Unix epoch
day of a timestamp in seconds. -/
def epochDay (ts : Nat) : Nat := ts / 86400

/-- models.py, `class TokenCache(BaseModel)`: an optional access token and an
optional timestamp at which it was set (`time.time()` in the source, a float;
modelled as epoch seconds). -/
structure TokenCache where
  access_token : Option String
  token_set_at : Option Nat
deriving Repr, DecidableEq

/-- models.py, `TokenCache.is_valid`:

`if not self.access_token or not self.token_set_at: return False` followed by
`return datetime.fromtimestamp(self.token_set_at).date() == datetime.now().date()`.

Python truthiness makes `not x` true for `None`, the empty string, and the
number zero, so a missing field, an empty token, and a zero timestamp all
short-circuit to `False`.  `dateOf` abstracts the local-calendar-day map and
`now` is the current clock reading. -/
def TokenCache.is_valid (c : TokenCache) (dateOf : Nat → Nat) (now : Nat) : Bool :=
  match c.access_token, c.token_set_at with
  | some tok, some ts =>
      if tok = "" || ts = 0 then false
      else dateOf ts == dateOf now
  | _, _ => false

/-- Content of the `.tokens.json` file: `none` when the file is absent,
otherwise the two persisted fields exactly as `save` writes them. -/
abbrev TokenFile := Option (Option String × Option Nat)

/-- models.py, `class PersistentTokenCache(TokenCache)` together with its
backing file: the in-memory cache plus the state of `.tokens.json`. -/
structure PState where
  cache : TokenCache
  file : TokenFile
deriving Repr, DecidableEq

/-- The empty persistent state: both cache fields `None` and no token file. -/
def PState.empty : PState := { cache := { access_token := none, token_set_at := none }, file := none }

/-- models.py, `PersistentTokenCache.save`: writes the two fields to the
token file as JSON (write errors are logged and swallowed in the source; the
model assumes the write succeeds). -/
def PState.save (s : PState) : PState :=
  { s with file := some (s.cache.access_token, s.cache.token_set_at) }

/-- models.py, `PersistentTokenCache.clear`: resets both fields to `None` and
deletes the token file if present. -/
def PState.clear (_ : PState) : PState := PState.empty

/-- models.py, `PersistentTokenCache.load`: if the token file exists, read
both fields from it, then `if not self.is_valid(): self.clear()`.  When the
file is absent the method does nothing. -/
def PState.load (s : PState) (dateOf : Nat → Nat) (now : Nat) : PState :=
  match s.file with
  | none => s
  | some (tok, ts) =>
      let s' : PState := { cache := { access_token := tok, token_set_at := ts }, file := s.file }
      if s'.cache.is_valid dateOf now then s' else s'.clear

/-- A JSON HTTP response as the claims need it: the status code, the `detail`
field FastAPI uses for `HTTPException` payloads, and the two body fields of
the health endpoint (absent on every other route). -/
structure Response where
  status : Nat
  detail : String := ""
  ok : Option Bool := none
  ts : Option String := none
deriving Repr, DecidableEq

/-- The call a route handler issues on the broker SDK object `mconnect`,
with the arguments exactly as the source passes them (after its `str(...)`
conversions). -/
inductive BrokerCall where
  | login
  | generateSession
  | placeOrder (tradingsymbol exchange transaction_type order_type quantity product validity price trigger_price : String)
  | modifyOrder (order_id : String) (quantity price trigger_price order_type validity disclosed_quantity : Option String)
  | cancelAll
  | getOrderBook
  | getTradeHistory (fromDate toDate : String)
  | getOrderDetails (order_id segment : String)
  | getLtp (instruments : List String)
  | getOhlc (instruments : List String)
  | getHistoricalChart (security_token interval fromDate toDate : String)
  | getInstruments
  | loserGainer (exchange securityIdCode segment : String)
deriving Repr, DecidableEq

/-- main.py, `require_admin` together with the framework semantics of its
parameter `x_admin_token : str = Header(..., alias="X-Admin-Token")`: a
required header that is absent fails FastAPI request validation with status
422 before the dependency body runs; a present header is compared by plain
equality against `settings.APP_ADMIN_TOKEN` and rejected with 401 on
mismatch.  Returns the rejection response, or `none` when the gate passes. -/
def requireAdmin (cfg : String) (hdr : Option String) : Option Response :=
  match hdr with
  | none => some { status := 422, detail := "Field required" }
  | some v => if v = cfg then none else some { status := 401, detail := "Invalid admin token" }

/-- A Python exception as the auth handlers see it: either a
`fastapi.HTTPException` raised by the handler body, or any other exception
(carrying its message) raised by the broker SDK. -/
inductive PyExc where
  | httpExc (status : Nat) (detail : String)
  | other (msg : String)
deriving Repr, DecidableEq

/-- Python `str(e)`: Starlette renders an `HTTPException` as
`"<status>: <detail>"`; other exceptions render their message. -/
def pyExcStr : PyExc → String
  | .httpExc s d => toString s ++ ": " ++ d
  | .other m => m

/-- Models the blanket `except Exception as e: raise HTTPException(500,
head + str(e))` clause of the two auth handlers.  `HTTPException` is itself
an `Exception`, so an `HTTPException` raised inside the `try` block is caught
here as well and re-raised with status 500. -/
def catchAll500 (head : String) : Except PyExc Response → Response
  | .ok r => r
  | .error e => { status := 500, detail := head ++ pyExcStr e }

-- Request bodies (models.py).  Prices and quantities that are Python floats
-- or ints are modelled as naturals; `datetime` query/body values as strings.

/-- models.py, `OrderRequest`. -/
structure OrderRequest where
  tradingsymbol : String
  exchange : String
  transaction_type : String
  order_type : String
  quantity : Nat
  product : String
  validity : String := "DAY"
  price : Option Nat := some 0
  trigger_price : Option Nat := some 0
deriving Repr, DecidableEq

/-- models.py, `ModifyOrderRequest`. -/
structure ModifyOrderRequest where
  order_id : String
  quantity : Option String := none
  price : Option String := none
  trigger_price : Option String := none
  order_type : Option String := none
  validity : Option String := none
  disclosed_quantity : Option String := none
deriving Repr, DecidableEq

/-- models.py, `CancelOrderRequest`. -/
structure CancelOrderRequest where
  order_id : String
deriving Repr, DecidableEq

/-- models.py, `OrderStatusRequest`. -/
structure OrderStatusRequest where
  order_id : String
  segment : String
deriving Repr, DecidableEq

/-- models.py, `LTPRequest`. -/
structure LTPRequest where
  instruments : List String
deriving Repr, DecidableEq

/-- models.py, `OHLCRequest`. -/
structure OHLCRequest where
  instruments : List String
deriving Repr, DecidableEq

/-- models.py, `HistoricalChartRequest` (the two datetimes are modelled by
their `isoformat()` strings, which is what the handler forwards). -/
structure HistoricalChartRequest where
  security_token : String
  interval : String
  from_date : String
  to_date : String
deriving Repr, DecidableEq

/-- models.py, `LoserGainerRequest`. -/
structure LoserGainerRequest where
  Exchange : String
  SecurityIdCode : String
  segment : String
deriving Repr, DecidableEq

/-- Python `x or 0` for an optional number (`None` and `0` are falsy, and
both yield `0` here). -/
def pyNumOrZero : Option Nat → Nat
  | none => 0
  | some n => n

/-- Python `str(x) if x else None` for an optional string: `None` and the
empty string are falsy and give `None`. -/
def pyStrOrNone : Option String → Option String
  | none => none
  | some s => if s = "" then none else some s

/-- main.py, body of `auth_login` inside the `try` block.  `loginStatus`
abstracts the broker response: an exception from `mconnect.login`, or the
value of `login_resp.get("status")` (with `none` also covering a falsy
response object).  `if not login_resp or login_resp.get("status") !=
"success"` raises `HTTPException(401, "Login failed: ...")`. -/
def auth_login_body (loginStatus : Except String (Option String)) : Except PyExc Response :=
  match loginStatus with
  | .error e => .error (.other e)
  | .ok s =>
      if s = some "success" then .ok { status := 200, detail := "OTP sent" }
      else .error (.httpExc 401 ("Login failed: " ++ (s.getD "None")))

/-- main.py, `POST /auth/login`: admin gate, then the `try` body, with every
exception (the internally raised `HTTPException(401, ...)` included) caught
by `except Exception as e` and re-raised as `HTTPException(500, "Auth error:
" + str(e))`.  The second component records the single `mconnect.login`
invocation, `none` when the gate rejected before it. -/
def auth_login (cfg : String) (hdr : Option String) (loginStatus : Except String (Option String)) :
    Response × Option BrokerCall :=
  match requireAdmin cfg hdr with
  | some r => (r, none)
  | none => (catchAll500 "Auth error: " (auth_login_body loginStatus), some BrokerCall.login)

/-- Python `gen.get("data", {}).get("access_token") or gen.get("access_token")`:
the inner lookup wins unless it is falsy (`None` or the empty string). -/
def extractToken (inner outer : Option String) : Option String :=
  if inner = none ∨ inner = some "" then outer else inner

/-- main.py, body of `auth_session` inside the `try` block.  `gen` abstracts
the session-exchange response: an exception from `mconnect.generate_session`,
or the pair of token lookups the handler performs on it.  A falsy extracted
token raises `HTTPException(500, "Failed to fetch access token...")`; on
success the handler stores the token with `time.time()` (`now`) into `TOKENS`
and calls `TOKENS.save()`. -/
def auth_session_body (gen : Except String (Option String × Option String)) (now : Nat)
    (st : PState) : Except PyExc (Response × PState) :=
  match gen with
  | .error e => .error (.other e)
  | .ok (inner, outer) =>
      match extractToken inner outer with
      | none => .error (.httpExc 500 "Failed to fetch access token")
      | some tok =>
          if tok = "" then .error (.httpExc 500 "Failed to fetch access token")
          else
            let st' : PState :=
              PState.save { cache := { access_token := some tok, token_set_at := some now }, file := st.file }
            .ok ({ status := 200, detail := "Session established" }, st')

/-- main.py, `POST /auth/session`: admin gate, then the `try` body with its
blanket `except Exception as e: raise HTTPException(500, "Session error: " +
str(e))`; an exception leaves the token state untouched. -/
def auth_session (cfg : String) (hdr : Option String)
    (gen : Except String (Option String × Option String)) (now : Nat) (st : PState) :
    Response × Option BrokerCall × PState :=
  match requireAdmin cfg hdr with
  | some r => (r, none, st)
  | none =>
      match auth_session_body gen now st with
      | .ok (r, st') => (r, some BrokerCall.generateSession, st')
      | .error e =>
          ({ status := 500, detail := "Session error: " ++ pyExcStr e }, some BrokerCall.generateSession, st)

/-- The 401 body shared by the order routes and `/market/ltp`:
`"Session expired. Please log in again."`. -/
def sessionExpiredLong : Response := { status := 401, detail := "Session expired. Please log in again." }

/-- The 401 body of the four market routes that use the short message
`"Session expired"`. -/
def sessionExpiredShort : Response := { status := 401, detail := "Session expired" }

/-- main.py, `POST /orders` (`place_order`): admin gate, session check (the
source reads `if not TOKENS.is_valid(): raise HTTPException(401, ...)`), then
`mconnect.place_order` with stringified numeric fields; an exception is
caught and re-raised as `HTTPException(400, "Order failed: " + str(e))`,
embedding the exception text. -/
def place_order (cfg : String) (hdr : Option String) (st : PState) (dateOf : Nat → Nat)
    (now : Nat) (body : OrderRequest) (broker : Except String Unit) :
    Response × Option BrokerCall × PState :=
  match requireAdmin cfg hdr with
  | some r => (r, none, st)
  | none =>
      if st.cache.is_valid dateOf now then
        let call := BrokerCall.placeOrder body.tradingsymbol body.exchange body.transaction_type
          body.order_type (toString body.quantity) body.product body.validity
          (toString (pyNumOrZero body.price)) (toString (pyNumOrZero body.trigger_price))
        match broker with
        | .ok _ => ({ status := 200 }, some call, st)
        | .error e => ({ status := 400, detail := "Order failed: " ++ e }, some call, st)
      else (sessionExpiredLong, none, st)

/-- main.py, `POST /orders/modify` (`modify_order`): same gates, then
`mconnect.modify_order` with the source's `str(x) if x else None`
conversions; exceptions become `HTTPException(400, "Order modification
failed")` (a fixed message). -/
def modify_order (cfg : String) (hdr : Option String) (st : PState) (dateOf : Nat → Nat)
    (now : Nat) (body : ModifyOrderRequest) (broker : Except String Unit) :
    Response × Option BrokerCall × PState :=
  match requireAdmin cfg hdr with
  | some r => (r, none, st)
  | none =>
      if st.cache.is_valid dateOf now then
        let call := BrokerCall.modifyOrder body.order_id (pyStrOrNone body.quantity)
          (pyStrOrNone body.price) (pyStrOrNone body.trigger_price) body.order_type
          body.validity (pyStrOrNone body.disclosed_quantity)
        match broker with
        | .ok _ => ({ status := 200 }, some call, st)
        | .error _ => ({ status := 400, detail := "Order modification failed" }, some call, st)
      else (sessionExpiredLong, none, st)

/-- main.py, `POST /orders/cancel` (`cancel_order`): same gates, then the
source calls `mconnect.cancel_all()` — the `order_id` carried by the request
body is never used; exceptions become `HTTPException(400, "Order
cancellation failed")`. -/
def cancel_order (cfg : String) (hdr : Option String) (st : PState) (dateOf : Nat → Nat)
    (now : Nat) (_body : CancelOrderRequest) (broker : Except String Unit) :
    Response × Option BrokerCall × PState :=
  match requireAdmin cfg hdr with
  | some r => (r, none, st)
  | none =>
      if st.cache.is_valid dateOf now then
        match broker with
        | .ok _ => ({ status := 200 }, some BrokerCall.cancelAll, st)
        | .error _ => ({ status := 400, detail := "Order cancellation failed" }, some BrokerCall.cancelAll, st)
      else (sessionExpiredLong, none, st)

/-- main.py, `GET /orders` (`get_orders`): `mconnect.get_order_book()` behind
both gates; exceptions become `HTTPException(400, "Could not fetch
orderbook")`. -/
def get_orders (cfg : String) (hdr : Option String) (st : PState) (dateOf : Nat → Nat)
    (now : Nat) (broker : Except String Unit) : Response × Option BrokerCall × PState :=
  match requireAdmin cfg hdr with
  | some r => (r, none, st)
  | none =>
      if st.cache.is_valid dateOf now then
        match broker with
        | .ok _ => ({ status := 200 }, some BrokerCall.getOrderBook, st)
        | .error _ => ({ status := 400, detail := "Could not fetch orderbook" }, some BrokerCall.getOrderBook, st)
      else (sessionExpiredLong, none, st)

/-- main.py, `GET /trades` (`get_trades`): `mconnect.get_trade_history` with
the two query datetimes; exceptions become `HTTPException(400, "Could not
fetch tradebook")`. -/
def get_trades (cfg : String) (hdr : Option String) (st : PState) (dateOf : Nat → Nat)
    (now : Nat) (fromDate toDate : String) (broker : Except String Unit) :
    Response × Option BrokerCall × PState :=
  match requireAdmin cfg hdr with
  | some r => (r, none, st)
  | none =>
      if st.cache.is_valid dateOf now then
        match broker with
        | .ok _ => ({ status := 200 }, some (BrokerCall.getTradeHistory fromDate toDate), st)
        | .error _ =>
            ({ status := 400, detail := "Could not fetch tradebook" }, some (BrokerCall.getTradeHistory fromDate toDate), st)
      else (sessionExpiredLong, none, st)

/-- main.py, `POST /orders/status` (`order_status`):
`mconnect.get_order_details`; exceptions become `HTTPException(400, "Could
not fetch order status")`. -/
def order_status (cfg : String) (hdr : Option String) (st : PState) (dateOf : Nat → Nat)
    (now : Nat) (body : OrderStatusRequest) (broker : Except String Unit) :
    Response × Option BrokerCall × PState :=
  match requireAdmin cfg hdr with
  | some r => (r, none, st)
  | none =>
      if st.cache.is_valid dateOf now then
        match broker with
        | .ok _ => ({ status := 200 }, some (BrokerCall.getOrderDetails body.order_id body.segment), st)
        | .error _ =>
            ({ status := 400, detail := "Could not fetch order status" },
             some (BrokerCall.getOrderDetails body.order_id body.segment), st)
      else (sessionExpiredLong, none, st)

/-- main.py, `POST /market/ltp` (`get_ltp`): `mconnect.get_ltp`; exceptions
become `HTTPException(400, "Could not fetch LTP")`. -/
def get_ltp (cfg : String) (hdr : Option String) (st : PState) (dateOf : Nat → Nat)
    (now : Nat) (body : LTPRequest) (broker : Except String Unit) :
    Response × Option BrokerCall × PState :=
  match requireAdmin cfg hdr with
  | some r => (r, none, st)
  | none =>
      if st.cache.is_valid dateOf now then
        match broker with
        | .ok _ => ({ status := 200 }, some (BrokerCall.getLtp body.instruments), st)
        | .error _ =>
            ({ status := 400, detail := "Could not fetch LTP" }, some (BrokerCall.getLtp body.instruments), st)
      else (sessionExpiredLong, none, st)

/-- One `except` clause: a guard deciding whether it handles the raised
exception (given its message), and the clause body, returning the response
it raises and whether it clears the token cache first. -/
structure ExceptClause where
  catches : String → Bool
  run : String → Response × Bool

/-- Python exception dispatch: the first `except` clause whose guard matches
the raised exception handles it; later clauses are never consulted. -/
def dispatchExcept : List ExceptClause → String → Option (Response × Bool)
  | [], _ => none
  | c :: cs, m => if c.catches m then some (c.run m) else dispatchExcept cs m

/-- main.py, the two `except` clauses of `get_ohlc`, in source order.  Both
are written `except Exception`, so both guards accept every exception.  The
first runs `TOKENS.clear()` and raises `HTTPException(401, "Session expired.
Please log in again.")`; the second would log and raise `HTTPException(400,
"Could not fetch OHLC")`. -/
def ohlcExceptClauses : List ExceptClause :=
  [⟨fun _ => true, fun _ => (sessionExpiredLong, true)⟩,
   ⟨fun _ => true, fun _ => ({ status := 400, detail := "Could not fetch OHLC" }, false)⟩]

/-- main.py, `POST /market/ohlc` (`get_ohlc`): admin gate, session check with
the short `"Session expired"` message, then `mconnect.get_ohlc`; a raised
exception is dispatched through the route's two `except` clauses. -/
def get_ohlc (cfg : String) (hdr : Option String) (st : PState) (dateOf : Nat → Nat)
    (now : Nat) (body : OHLCRequest) (broker : Except String Unit) :
    Response × Option BrokerCall × PState :=
  match requireAdmin cfg hdr with
  | some r => (r, none, st)
  | none =>
      if st.cache.is_valid dateOf now then
        match broker with
        | .ok _ => ({ status := 200 }, some (BrokerCall.getOhlc body.instruments), st)
        | .error m =>
            match dispatchExcept ohlcExceptClauses m with
            | some (r, true) => (r, some (BrokerCall.getOhlc body.instruments), st.clear)
            | some (r, false) => (r, some (BrokerCall.getOhlc body.instruments), st)
            | none => ({ status := 500, detail := "Internal Server Error" }, some (BrokerCall.getOhlc body.instruments), st)
      else (sessionExpiredShort, none, st)

/-- main.py, `POST /market/historical` (`get_historical_chart`):
`mconnect.get_historical_chart` with the two dates as `isoformat()` strings;
exceptions become `HTTPException(400, "Could not fetch historical chart")`. -/
def get_historical_chart (cfg : String) (hdr : Option String) (st : PState) (dateOf : Nat → Nat)
    (now : Nat) (body : HistoricalChartRequest) (broker : Except String Unit) :
    Response × Option BrokerCall × PState :=
  match requireAdmin cfg hdr with
  | some r => (r, none, st)
  | none =>
      if st.cache.is_valid dateOf now then
        let call := BrokerCall.getHistoricalChart body.security_token body.interval body.from_date body.to_date
        match broker with
        | .ok _ => ({ status := 200 }, some call, st)
        | .error _ => ({ status := 400, detail := "Could not fetch historical chart" }, some call, st)
      else (sessionExpiredShort, none, st)

/-- main.py, `GET /market/instruments` (`get_instruments`):
`mconnect.get_instruments()`, then a local CSV snapshot (not modelled) and
the fixed success body `"Instrument file saved"`; exceptions become
`HTTPException(400, "Could not fetch instruments")`. -/
def get_instruments (cfg : String) (hdr : Option String) (st : PState) (dateOf : Nat → Nat)
    (now : Nat) (broker : Except String Unit) : Response × Option BrokerCall × PState :=
  match requireAdmin cfg hdr with
  | some r => (r, none, st)
  | none =>
      if st.cache.is_valid dateOf now then
        match broker with
        | .ok _ => ({ status := 200, detail := "Instrument file saved" }, some BrokerCall.getInstruments, st)
        | .error _ =>
            ({ status := 400, detail := "Could not fetch instruments" }, some BrokerCall.getInstruments, st)
      else (sessionExpiredShort, none, st)

/-- main.py, `POST /market/loser_gainer` (`loser_gainer`):
`mconnect.loser_gainer`; exceptions become `HTTPException(400, "Could not
fetch losers/gainers")`. -/
def loser_gainer (cfg : String) (hdr : Option String) (st : PState) (dateOf : Nat → Nat)
    (now : Nat) (body : LoserGainerRequest) (broker : Except String Unit) :
    Response × Option BrokerCall × PState :=
  match requireAdmin cfg hdr with
  | some r => (r, none, st)
  | none =>
      if st.cache.is_valid dateOf now then
        let call := BrokerCall.loserGainer body.Exchange body.SecurityIdCode body.segment
        match broker with
        | .ok _ => ({ status := 200 }, some call, st)
        | .error _ => ({ status := 400, detail := "Could not fetch losers/gainers" }, some call, st)
      else (sessionExpiredShort, none, st)

/-- The admin-gated routes of main.py. -/
inductive RouteId where
  | authLogin | authSession
  | orders | ordersModify | ordersCancel | ordersList | trades | ordersStatus
  | marketLtp | marketOhlc | marketHistorical | marketInstruments | marketLoserGainer
deriving Repr, DecidableEq

/-- Which routes check `TOKENS.is_valid()` before calling the broker (all of
them except the two auth routes). -/
def RouteId.requiresSession : RouteId → Bool
  | .authLogin | .authSession => false
  | _ => true

/-- The exact 401 body each session-gated route raises when
`TOKENS.is_valid()` is false (the auth routes never raise it; their entry is
unused). -/
def sessionDetailOf : RouteId → String
  | .marketOhlc | .marketHistorical | .marketInstruments | .marketLoserGainer => "Session expired"
  | _ => "Session expired. Please log in again."

/-- One request's worth of inputs to the app: configuration, the supplied
admin header, the clock and calendar-day map, the token state, the broker
outcomes, and a body for every route. -/
structure Env where
  cfg : String
  hdr : Option String
  dateOf : Nat → Nat
  now : Nat
  st : PState
  loginResp : Except String (Option String)
  genResp : Except String (Option String × Option String)
  orderBody : OrderRequest
  modifyBody : ModifyOrderRequest
  cancelBody : CancelOrderRequest
  statusBody : OrderStatusRequest
  ltpBody : LTPRequest
  ohlcBody : OHLCRequest
  histBody : HistoricalChartRequest
  lgBody : LoserGainerRequest
  tradesFrom : String
  tradesTo : String
  broker : Except String Unit

/-- Dispatch a request to the route handlers above, returning the response,
the broker call made (if any), and the token state afterwards. -/
def runRoute (e : Env) : RouteId → Response × Option BrokerCall × PState
  | .authLogin =>
      let r := auth_login e.cfg e.hdr e.loginResp
      (r.1, r.2, e.st)
  | .authSession => auth_session e.cfg e.hdr e.genResp e.now e.st
  | .orders => place_order e.cfg e.hdr e.st e.dateOf e.now e.orderBody e.broker
  | .ordersModify => modify_order e.cfg e.hdr e.st e.dateOf e.now e.modifyBody e.broker
  | .ordersCancel => cancel_order e.cfg e.hdr e.st e.dateOf e.now e.cancelBody e.broker
  | .ordersList => get_orders e.cfg e.hdr e.st e.dateOf e.now e.broker
  | .trades => get_trades e.cfg e.hdr e.st e.dateOf e.now e.tradesFrom e.tradesTo e.broker
  | .ordersStatus => order_status e.cfg e.hdr e.st e.dateOf e.now e.statusBody e.broker
  | .marketLtp => get_ltp e.cfg e.hdr e.st e.dateOf e.now e.ltpBody e.broker
  | .marketOhlc => get_ohlc e.cfg e.hdr e.st e.dateOf e.now e.ohlcBody e.broker
  | .marketHistorical => get_historical_chart e.cfg e.hdr e.st e.dateOf e.now e.histBody e.broker
  | .marketInstruments => get_instruments e.cfg e.hdr e.st e.dateOf e.now e.broker
  | .marketLoserGainer => loser_gainer e.cfg e.hdr e.st e.dateOf e.now e.lgBody e.broker

/-- One counter of the slowapi/limits in-memory fixed-window storage: the
time the current window opened (the first hit after the previous window
expired) and the number of hits recorded in it. -/
structure LimiterBucket where
  windowStart : Nat
  count : Nat
deriving Repr, DecidableEq

/-- security.py line 10: `Limiter(key_func=get_remote_address,
default_limits=["10/minute"])` applied through `SlowAPIMiddleware`
(main.py).  Default limits are evaluated per request path, so the storage is
keyed by the pair (client address, route path). -/
abbrev LimiterState := String × String → Option LimiterBucket

/-- The limiter storage with no buckets. -/
def emptyLim : LimiterState := fun _ => none

/-- The bucket after one hit: a fresh window of count 1 when no live window
exists or the old one has expired, otherwise the live window with its count
incremented (the counter is bumped even for requests that end up rejected,
matching the `incr`-then-compare storage of the limits library). -/
def bumpBucket (window : Nat) (old : Option LimiterBucket) (now : Nat) : LimiterBucket :=
  match old with
  | none => { windowStart := now, count := 1 }
  | some b =>
      if now < b.windowStart + window then { b with count := b.count + 1 }
      else { windowStart := now, count := 1 }

/-- One request through the fixed-window limiter for key (addr, path) at
time `now`: returns whether the request is admitted (count within `limit`)
and the updated storage. -/
def limiterHit (limit window : Nat) (st : LimiterState) (addr path : String) (now : Nat) :
    Bool × LimiterState :=
  let b := bumpBucket window (st (addr, path)) now
  (decide (b.count ≤ limit), fun k => if k = (addr, path) then some b else st k)

/-- Feed a list of requests (address, path, arrival time) through the
limiter, collecting the admit/reject verdicts. -/
def runLimiter (limit window : Nat) (st : LimiterState) :
    List (String × String × Nat) → List Bool × LimiterState
  | [] => ([], st)
  | (addr, path, t) :: rest =>
      let r := limiterHit limit window st addr path t
      let rs := runLimiter limit window r.2 rest
      (r.1 :: rs.1, rs.2)

/-- The verdicts expected from a run of hits on one key whose window already
holds `c` hits: the i-th further hit is admitted iff `c + i + 1 ≤ limit`. -/
def expectedAllows (limit c : Nat) : Nat → List Bool
  | 0 => []
  | n + 1 => decide (c + 1 ≤ limit) :: expectedAllows limit (c + 1) n

/-- The status a request ends with: the handler's status when the limiter
admits it, otherwise 429 from slowapi's `_rate_limit_exceeded_handler`. -/
def requestStatus (admitted : Bool) (handlerStatus : Nat) : Nat :=
  if admitted then handlerStatus else 429

/-- main.py, `GET /healthz`: returns `{ok: True, ts:
datetime.now(timezone.utc).isoformat()}` with status 200.  `iso` abstracts
the `isoformat()` rendering of the UTC clock. -/
def healthz (iso : Nat → String) (now : Nat) : Response :=
  { status := 200, ok := some true, ts := some (iso now) }

/-- The 429 response produced by slowapi's handler for the default limit. -/
def rateLimitResponse : Response := { status := 429, detail := "Rate limit exceeded: 10 per 1 minute" }

/-- `GET /healthz` as served by the app: the SlowAPI middleware first checks
the default `10/minute` limit for this client and path, then the handler
runs.  The route declares no dependency and reads no token state, so the
admin header and the token cache are accepted and ignored. -/
def healthzApp (iso : Nat → String) (_hdr : Option String) (_cache : TokenCache)
    (lim : LimiterState) (addr : String) (now : Nat) : Response × LimiterState :=
  let hit := limiterHit 10 60 lim addr "/healthz" now
  (if hit.1 then healthz iso now else rateLimitResponse, hit.2)

/-- A token cache that is valid at clock 100000 under `epochDay`. -/
def validCache : TokenCache := { access_token := some "tok", token_set_at := some 100000 }

/-- A persistent state holding `validCache` and no token file. -/
def validState : PState := { cache := validCache, file := none }

/-- A concrete request environment: correct admin header, valid session,
well-formed bodies, broker succeeding. -/
def baseEnv : Env where
  cfg := "admin-token"
  hdr := some "admin-token"
  dateOf := epochDay
  now := 100000
  st := validState
  loginResp := .ok (some "success")
  genResp := .ok (some "mock_access_token", none)
  orderBody := { tradingsymbol := "SBIN", exchange := "NSE", transaction_type := "BUY",
                 order_type := "MARKET", quantity := 1, product := "CNC" }
  modifyBody := { order_id := "ORD-1" }
  cancelBody := { order_id := "ORD-1" }
  statusBody := { order_id := "ORD-1", segment := "NSE" }
  ltpBody := { instruments := ["NSE:RELIANCE"] }
  ohlcBody := { instruments := ["NSE:INFY"] }
  histBody := { security_token := "12345", interval := "1d",
                from_date := "2024-01-01T00:00:00", to_date := "2024-01-02T00:00:00" }
  lgBody := { Exchange := "NSE", SecurityIdCode := "NIFTY", segment := "EQ" }
  tradesFrom := "2024-01-01"
  tradesTo := "2024-01-02"
  broker := .ok ()

/-- The broker login step failed: the SDK call raised, or the response
status field is not "success" (`none` also covers a falsy response object). -/
def loginFailed : Except String (Option String) → Bool
  | .error _ => true
  | .ok s => s != some "success"

/-- The session-exchange step failed: the SDK call raised, or no truthy
access token could be extracted from the response. -/
def sessionFailed : Except String (Option String × Option String) → Bool
  | .error _ => true
  | .ok (inner, outer) =>
      match extractToken inner outer with
      | none => true
      | some t => t == ""

/-- Every route rejects a request without the admin header through FastAPI's
required-header validation (422), before any broker call. -/
theorem runRoute_admin_absent (e : Env) (r : RouteId) (h : e.hdr = none) :
    runRoute e r = ({ status := 422, detail := "Field required" }, none, e.st) := by
  cases r <;>
    simp_all [runRoute, requireAdmin, auth_login, auth_session, place_order, modify_order,
      cancel_order, get_orders, get_trades, order_status, get_ltp, get_ohlc,
      get_historical_chart, get_instruments, loser_gainer]

/-- Every route rejects a request whose admin header differs from the
configured token with 401, before any broker call. -/
theorem runRoute_admin_mismatch (e : Env) (r : RouteId) (v : String)
    (h : e.hdr = some v) (hne : v ≠ e.cfg) :
    runRoute e r = ({ status := 401, detail := "Invalid admin token" }, none, e.st) := by
  cases r <;>
    simp_all [runRoute, requireAdmin, auth_login, auth_session, place_order, modify_order,
      cancel_order, get_orders, get_trades, order_status, get_ltp, get_ohlc,
      get_historical_chart, get_instruments, loser_gainer]

/-- Every session-gated route answers 401 with its session-expired body and
makes no broker call when the admin header is correct but the cached session
is invalid; the token state is untouched. -/
theorem runRoute_session_gate (e : Env) (r : RouteId)
    (hses : r.requiresSession = true) (hadm : e.hdr = some e.cfg)
    (hval : e.st.cache.is_valid e.dateOf e.now = false) :
    runRoute e r = ({ status := 401, detail := sessionDetailOf r }, none, e.st) := by
  cases r <;>
    simp_all [runRoute, RouteId.requiresSession, sessionDetailOf, requireAdmin,
      place_order, modify_order, cancel_order, get_orders, get_trades, order_status,
      get_ltp, get_ohlc, get_historical_chart, get_instruments, loser_gainer,
      sessionExpiredLong, sessionExpiredShort]

/-- Claim C1 (amended): for every token-cache state and clock, `is_valid()`
returns true iff the access token is present and non-empty, the set-at
timestamp is present and nonzero (Python truthiness also rejects a 0.0
timestamp), and the calendar day of the timestamp equals the current
calendar day; in particular a token set on an earlier calendar day is
invalid after midnight with no explicit clear. -/
theorem C1_is_valid_iff (c : TokenCache) (dateOf : Nat → Nat) (now : Nat) :
    c.is_valid dateOf now = true ↔
      ∃ tok ts, c.access_token = some tok ∧ tok ≠ "" ∧
        c.token_set_at = some ts ∧ ts ≠ 0 ∧ dateOf ts = dateOf now := by
  obtain ⟨a, t⟩ := c
  cases a <;> cases t <;> simp [TokenCache.is_valid]
  case some.some tok ts =>
    by_cases h1 : tok = "" <;> by_cases h2 : ts = 0 <;> simp [h1, h2]

/-- Claim C1 counterexample: the state with token "x" set at timestamp 0 has
both fields set and its stored calendar day equal to the current one (clock
0), yet `is_valid()` returns false, because `not self.token_set_at` is true
for the timestamp 0.0. -/
theorem C1_counterexample :
    (TokenCache.mk (some "x") (some 0)).access_token = some "x" ∧
    "x" ≠ "" ∧
    (TokenCache.mk (some "x") (some 0)).token_set_at = some 0 ∧
    epochDay 0 = epochDay 0 ∧
    (TokenCache.mk (some "x") (some 0)).is_valid epochDay 0 = false :=
  ⟨rfl, by decide, rfl, rfl, by decide⟩

/-- Claim C4 (amended): `save()` followed by `load()` on the same calendar
day reproduces an equal cache state when the stored token is valid on that
day; an invalid stored state is cleared to the empty state by the `load`
re-validation.  `clear()` followed by `load()` always yields the empty state
(both fields `None`), on which `is_valid()` is false. -/
theorem C4_save_load_clear (s : PState) (dateOf : Nat → Nat) (now : Nat) :
    (s.cache.is_valid dateOf now = true →
      ((s.save.load dateOf now).cache = s.cache ∧ s.save.load dateOf now = s.save)) ∧
    ((s.clear.load dateOf now).cache = TokenCache.mk none none ∧
      (s.clear.load dateOf now).cache.is_valid dateOf now = false) := by
  constructor
  · intro h
    have hcache : TokenCache.mk s.cache.access_token s.cache.token_set_at = s.cache := rfl
    constructor <;> simp [PState.load, PState.save, hcache, h]
  · exact ⟨rfl, rfl⟩

/-- Claim C4 witness: saving and re-loading the valid state `validState` at
clock 100000 reproduces its cache. -/
theorem C4_witness :
    validState.cache.is_valid epochDay 100000 = true ∧
    (validState.save.load epochDay 100000).cache = validState.cache :=
  ⟨by decide, ((C4_save_load_clear validState epochDay 100000).1 (by decide)).1⟩

/-- Claim C4 counterexample: a cache whose token was stored on the previous
calendar day (timestamp 86400, day 1) is not reproduced by save-then-load at
clock 172800 (day 2): `load` re-validates and clears both fields. -/
theorem C4_counterexample :
    ((PState.mk (TokenCache.mk (some "x") (some 86400)) none).save.load epochDay 172800).cache
      ≠ TokenCache.mk (some "x") (some 86400) := by decide

/-- Claim C5: the `POST /orders/cancel` handler never forwards the supplied
order id — with a correct admin token and a valid session it issues the
broker call `cancel_all()`, which names no order id and is identical for two
requests naming different orders. -/
theorem C5_cancel_ignores_order_id :
    (cancel_order "adm" (some "adm") validState epochDay 100000 { order_id := "ORD-1" } (.ok ())).2.1
        = some BrokerCall.cancelAll ∧
    (cancel_order "adm" (some "adm") validState epochDay 100000 { order_id := "ORD-1" } (.ok ())).2.1
        = (cancel_order "adm" (some "adm") validState epochDay 100000 { order_id := "ORD-2" } (.ok ())).2.1 := by
  decide

/-- Claim C2 (amended): for every request to a sensitive route (auth, order
and market routes alike), an absent `X-Admin-Token` header is rejected with
status 422 by FastAPI's required-header validation, and a present header
that differs from the configured admin token is rejected with 401; in both
cases no broker-SDK call is made and the token state is untouched. -/
theorem C2_admin_gate (e : Env) (r : RouteId) :
    (e.hdr = none →
      runRoute e r = ({ status := 422, detail := "Field required" }, none, e.st)) ∧
    (∀ v, e.hdr = some v → v ≠ e.cfg →
      runRoute e r = ({ status := 401, detail := "Invalid admin token" }, none, e.st)) :=
  ⟨fun h => runRoute_admin_absent e r h,
   fun v h hne => runRoute_admin_mismatch e r v h hne⟩

/-- Claim C2 witness: a concrete request without the header is rejected 422,
and one with the wrong header is rejected 401, both without a broker call. -/
theorem C2_witness :
    runRoute { baseEnv with hdr := none } RouteId.marketLtp
      = ({ status := 422, detail := "Field required" }, none, baseEnv.st) ∧
    runRoute { baseEnv with hdr := some "wrong" } RouteId.ordersModify
      = ({ status := 401, detail := "Invalid admin token" }, none, baseEnv.st) :=
  ⟨(C2_admin_gate { baseEnv with hdr := none } RouteId.marketLtp).1 rfl,
   (C2_admin_gate { baseEnv with hdr := some "wrong" } RouteId.ordersModify).2 "wrong" rfl (by decide)⟩

/-- Claim C2 counterexample: a `POST /orders` request with the
`X-Admin-Token` header absent is answered 422 (schema validation), not 401
as the claim states; no broker call is made. -/
theorem C2_counterexample :
    (runRoute { baseEnv with hdr := none } RouteId.orders).1.status = 422 ∧
    ¬ (runRoute { baseEnv with hdr := none } RouteId.orders).1.status = 401 ∧
    (runRoute { baseEnv with hdr := none } RouteId.orders).2.1 = none :=
  ⟨rfl, by decide, rfl⟩

/-- Claim C3: every order or market-data route called with the correct admin
token while the token cache is invalid answers 401 with its session-expired
detail, and the broker SDK is not contacted. -/
theorem C3_session_expired (e : Env) (r : RouteId)
    (hses : r.requiresSession = true) (hadm : e.hdr = some e.cfg)
    (hval : e.st.cache.is_valid e.dateOf e.now = false) :
    (runRoute e r).1.status = 401 ∧
    (runRoute e r).1.detail = sessionDetailOf r ∧
    (runRoute e r).2.1 = none := by
  rw [runRoute_session_gate e r hses hadm hval]
  exact ⟨rfl, rfl, rfl⟩

/-- Claim C3 witness: with an empty token cache and the correct admin token,
`POST /orders` answers 401 "Session expired. Please log in again." and calls
no broker method. -/
theorem C3_witness :
    (runRoute { baseEnv with st := PState.empty } RouteId.orders).1.status = 401 ∧
    (runRoute { baseEnv with st := PState.empty } RouteId.orders).1.detail
      = sessionDetailOf RouteId.orders ∧
    (runRoute { baseEnv with st := PState.empty } RouteId.orders).2.1 = none :=
  C3_session_expired { baseEnv with st := PState.empty } RouteId.orders rfl rfl (by decide)

/-- Claim C6 (amended): `GET /healthz` ignores the admin header and the
token-cache state entirely, and every request the rate limiter admits is
answered 200 with body `ok: true` and the rendered UTC timestamp of the
current clock; a request that exceeds the default 10-per-minute window for
this client and path is answered 429 instead. -/
theorem C6_healthz (iso : Nat → String) (hdr hdr' : Option String) (c c' : TokenCache)
    (lim : LimiterState) (addr : String) (now : Nat) :
    healthzApp iso hdr c lim addr now = healthzApp iso hdr' c' lim addr now ∧
    ((limiterHit 10 60 lim addr "/healthz" now).1 = true →
      (healthzApp iso hdr c lim addr now).1
        = { status := 200, ok := some true, ts := some (iso now) }) := by
  refine ⟨rfl, fun h => ?_⟩
  simp [healthzApp, healthz, h]

/-- Claim C6 witness: a first request from a fresh client is admitted and
receives 200 with `ok: true` and the rendered timestamp. -/
theorem C6_witness :
    (healthzApp (fun n => toString n) (some "x") validCache emptyLim "1.2.3.4" 5).1
      = { status := 200, ok := some true, ts := some (toString 5) } :=
  (C6_healthz (fun n => toString n) (some "x") none validCache
    (TokenCache.mk none none) emptyLim "1.2.3.4" 5).2 rfl

/-- Claim C6 counterexample: with the `/healthz` fixed-window counter of
client "9.9.9.9" already at 10 hits in a live window, the next request — the
11th within 60 seconds — is answered 429, not 200, and its body carries no
`ok` field. -/
theorem C6_counterexample :
    (healthzApp (fun _ => "") none (TokenCache.mk none none)
        (fun k => if k = ("9.9.9.9", "/healthz") then some ⟨0, 10⟩ else none)
        "9.9.9.9" 30).1.status = 429 ∧
    ¬ (healthzApp (fun _ => "") none (TokenCache.mk none none)
        (fun k => if k = ("9.9.9.9", "/healthz") then some ⟨0, 10⟩ else none)
        "9.9.9.9" 30).1.status = 200 ∧
    (healthzApp (fun _ => "") none (TokenCache.mk none none)
        (fun k => if k = ("9.9.9.9", "/healthz") then some ⟨0, 10⟩ else none)
        "9.9.9.9" 30).1.ok = none := by
  refine ⟨rfl, by decide, rfl⟩

/-- Claim C7 (amended): with a correct admin token, a failed broker login
(non-success status or SDK exception) and a failed session exchange (no
access token in the response or SDK exception) both surface to the client as
status 500 — the handlers' blanket `except Exception` clauses catch even the
internally raised `HTTPException` and re-raise "Auth error"/"Session error"
with status 500 — the broker step is invoked exactly once with no retry, and
a failed session exchange leaves the token state untouched. -/
theorem C7_auth_failure_surfaces_500 (cfg : String) (login : Except String (Option String))
    (gen : Except String (Option String × Option String)) (now : Nat) (st : PState) :
    (loginFailed login = true →
      (auth_login cfg (some cfg) login).1.status = 500 ∧
      (auth_login cfg (some cfg) login).2 = some BrokerCall.login) ∧
    (sessionFailed gen = true →
      (auth_session cfg (some cfg) gen now st).1.status = 500 ∧
      (auth_session cfg (some cfg) gen now st).2.1 = some BrokerCall.generateSession ∧
      (auth_session cfg (some cfg) gen now st).2.2 = st) := by
  constructor
  · intro h
    cases login with
    | error e => simp [auth_login, requireAdmin, auth_login_body, catchAll500]
    | ok s =>
      have hs : s ≠ some "success" := by simpa [loginFailed] using h
      simp [auth_login, requireAdmin, auth_login_body, hs, catchAll500]
  · intro h
    cases gen with
    | error e => simp [auth_session, requireAdmin, auth_session_body]
    | ok p =>
      obtain ⟨inner, outer⟩ := p
      cases hext : extractToken inner outer with
      | none => simp [auth_session, requireAdmin, auth_session_body, hext]
      | some t =>
        have ht : t = "" := by simpa [sessionFailed, hext] using h
        simp [auth_session, requireAdmin, auth_session_body, hext, ht]

/-- Claim C7 witness: a login answered with status "failure" and a session
exchange carrying no access token both surface as 500. -/
theorem C7_witness :
    loginFailed (.ok (some "failure")) = true ∧
    (auth_login "adm" (some "adm") (.ok (some "failure"))).1.status = 500 ∧
    sessionFailed (.ok (none, none)) = true ∧
    (auth_session "adm" (some "adm") (.ok (none, none)) 5 PState.empty).1.status = 500 :=
  ⟨by decide,
   ((C7_auth_failure_surfaces_500 "adm" (.ok (some "failure")) (.ok (none, none)) 5 PState.empty).1
      (by decide)).1,
   by decide,
   ((C7_auth_failure_surfaces_500 "adm" (.ok (some "failure")) (.ok (none, none)) 5 PState.empty).2
      (by decide)).1⟩

/-- Claim C7 counterexample: a broker login response with status "failure"
surfaces as status 500, not as a 401 authentication error — the blanket
`except Exception` catches the internally raised `HTTPException(401, ...)`
and re-raises it as a 500 "Auth error". -/
theorem C7_counterexample :
    (auth_login "adm" (some "adm") (.ok (some "failure"))).1.status = 500 ∧
    ¬ (auth_login "adm" (some "adm") (.ok (some "failure"))).1.status = 401 := by
  decide

/-- Claim C8 (amended): every broker-SDK exception raised inside an order or
market-data route handler is caught at the route boundary and answered with
that route's error response; the client-facing detail is a fixed message
that does not depend on the exception for every route except `POST /orders`,
whose detail embeds the exception text ("Order failed: " followed by it).
`POST /market/ohlc` answers its fixed 401 session-expired message. -/
theorem C8_exception_to_client (e : Env) (m : String)
    (hadm : e.hdr = some e.cfg)
    (hval : e.st.cache.is_valid e.dateOf e.now = true)
    (hbr : e.broker = .error m) :
    (runRoute e .orders).1 = { status := 400, detail := "Order failed: " ++ m } ∧
    (runRoute e .ordersModify).1 = { status := 400, detail := "Order modification failed" } ∧
    (runRoute e .ordersCancel).1 = { status := 400, detail := "Order cancellation failed" } ∧
    (runRoute e .ordersList).1 = { status := 400, detail := "Could not fetch orderbook" } ∧
    (runRoute e .trades).1 = { status := 400, detail := "Could not fetch tradebook" } ∧
    (runRoute e .ordersStatus).1 = { status := 400, detail := "Could not fetch order status" } ∧
    (runRoute e .marketLtp).1 = { status := 400, detail := "Could not fetch LTP" } ∧
    (runRoute e .marketOhlc).1 = { status := 401, detail := "Session expired. Please log in again." } ∧
    (runRoute e .marketHistorical).1 = { status := 400, detail := "Could not fetch historical chart" } ∧
    (runRoute e .marketInstruments).1 = { status := 400, detail := "Could not fetch instruments" } ∧
    (runRoute e .marketLoserGainer).1 = { status := 400, detail := "Could not fetch losers/gainers" } := by
  refine ⟨?_, ?_, ?_, ?_, ?_, ?_, ?_, ?_, ?_, ?_, ?_⟩ <;>
    simp [runRoute, place_order, modify_order, cancel_order, get_orders, get_trades,
      order_status, get_ltp, get_ohlc, get_historical_chart, get_instruments, loser_gainer,
      requireAdmin, hadm, hval, hbr, dispatchExcept, ohlcExceptClauses,
      sessionExpiredLong, sessionExpiredShort]

/-- Claim C8 witness: with a valid session and a failing broker, the modify
route answers its fixed message. -/
theorem C8_witness :
    (runRoute { baseEnv with broker := .error "boom" } RouteId.ordersModify).1
      = { status := 400, detail := "Order modification failed" } :=
  (C8_exception_to_client { baseEnv with broker := .error "boom" } "boom" rfl (by decide) rfl).2.1

/-- Claim C8 counterexample: the client-facing detail of `POST /orders` is
not a fixed generic message — it embeds the text of the underlying broker
exception, so two different exceptions produce two different details. -/
theorem C8_counterexample :
    (place_order "adm" (some "adm") validState epochDay 100000
        { tradingsymbol := "SBIN", exchange := "NSE", transaction_type := "BUY",
          order_type := "MARKET", quantity := 1, product := "CNC" } (.error "boom")).1.detail
      = "Order failed: boom" ∧
    (place_order "adm" (some "adm") validState epochDay 100000
        { tradingsymbol := "SBIN", exchange := "NSE", transaction_type := "BUY",
          order_type := "MARKET", quantity := 1, product := "CNC" } (.error "boom")).1.detail
      ≠ (place_order "adm" (some "adm") validState epochDay 100000
        { tradingsymbol := "SBIN", exchange := "NSE", transaction_type := "BUY",
          order_type := "MARKET", quantity := 1, product := "CNC" } (.error "zap")).1.detail := by
  decide

/-- On a limiter key whose live window (opened at `t0`) already counts `c`
hits, a run of further hits all inside that window yields the
`expectedAllows` verdicts: the i-th hit is admitted iff the count stays
within 10. -/
theorem runLimiter_in_window (addr path : String) (t0 : Nat) (ts : List Nat) :
    ∀ (st : LimiterState) (c : Nat), st (addr, path) = some ⟨t0, c⟩ →
    (∀ t ∈ ts, t < t0 + 60) →
    (runLimiter 10 60 st (ts.map fun t => (addr, path, t))).1 = expectedAllows 10 c ts.length := by
  induction ts with
  | nil => intro st c hst hts; simp [runLimiter, expectedAllows]
  | cons t rest ih =>
    intro st c hst hts
    have htw : t < t0 + 60 := hts t (by simp)
    have hrest : ∀ u ∈ rest, u < t0 + 60 := fun u hu => hts u (by simp [hu])
    have hst' : (limiterHit 10 60 st addr path t).2 (addr, path) = some ⟨t0, c + 1⟩ := by
      simp [limiterHit, bumpBucket, hst, htw]
    have hr1 : (limiterHit 10 60 st addr path t).1 = decide (c + 1 ≤ 10) := by
      simp [limiterHit, bumpBucket, hst, htw]
    simp only [List.map_cons, runLimiter, List.length_cons]
    rw [ih _ _ hst' hrest, hr1]
    simp [expectedAllows]

/-- Claim C9 (amended): the default limiter is a fixed-window counter keyed
by the pair (client address, route path).  For any client address and route
path, a run of 11 requests on that key within one 60-second window (the
first request opens the window) sees the first 10 admitted — the handler
status passes through — and the 11th rejected with 429; a hit on a
different key never changes this key's counter; and once a window has
expired, the next hit is admitted again and opens a fresh window of count
1. -/
theorem C9_fixed_window :
    (∀ (addr path : String) (t0 : Nat) (ts : List Nat), ts.length = 10 →
      (∀ t ∈ ts, t < t0 + 60) →
      ((runLimiter 10 60 emptyLim
          ((addr, path, t0) :: ts.map fun t => (addr, path, t))).1.map
            fun a => requestStatus a 200)
        = List.replicate 10 200 ++ [429]) ∧
    (∀ (st : LimiterState) (a p a' p' : String) (n : Nat), (a, p) ≠ (a', p') →
      (limiterHit 10 60 st a' p' n).2 (a, p) = st (a, p)) ∧
    (∀ (st : LimiterState) (a p : String) (n : Nat) (b : LimiterBucket),
      st (a, p) = some b → b.windowStart + 60 ≤ n →
      (limiterHit 10 60 st a p n).1 = true ∧
      (limiterHit 10 60 st a p n).2 (a, p) = some ⟨n, 1⟩) := by
  refine ⟨?_, ?_, ?_⟩
  · intro addr path t0 ts hlen hts
    have h1 : (limiterHit 10 60 emptyLim addr path t0).2 (addr, path) = some ⟨t0, 1⟩ := by
      simp [limiterHit, bumpBucket, emptyLim]
    have h2 : (limiterHit 10 60 emptyLim addr path t0).1 = true := by
      simp [limiterHit, bumpBucket, emptyLim]
    simp only [runLimiter]
    rw [runLimiter_in_window addr path t0 ts _ 1 h1 hts, h2, hlen]
    decide
  · intro st a p a' p' n hne
    simp [limiterHit, hne]
  · intro st a p n b hb hw
    have hnl : ¬ n < b.windowStart + 60 := Nat.not_lt.mpr hw
    constructor <;> simp [limiterHit, bumpBucket, hb, hnl]

/-- Claim C9 witness: 11 requests from one address to one path inside one
minute — the first 10 pass with the handler status, the 11th is answered
429. -/
theorem C9_witness :
    ((runLimiter 10 60 emptyLim
        (("1.1.1.1", "/orders", 0) :: [1, 2, 3, 4, 5, 6, 7, 8, 9, 10].map
          fun t => ("1.1.1.1", "/orders", t))).1.map fun a => requestStatus a 200)
      = List.replicate 10 200 ++ [429] :=
  C9_fixed_window.1 "1.1.1.1" "/orders" 0 [1, 2, 3, 4, 5, 6, 7, 8, 9, 10] (by decide) (by decide)

/-- Claim C9 counterexample: the counter is not keyed by client address
alone — after 10 in-window requests from one address to `/orders`, an 11th
request from the same address within the same 60 seconds but to `/healthz`
is admitted (status 200), not rejected with 429. -/
theorem C9_counterexample :
    ((runLimiter 10 60 emptyLim
        (([0, 1, 2, 3, 4, 5, 6, 7, 8, 9].map fun t => ("1.1.1.1", "/orders", t))
          ++ [("1.1.1.1", "/healthz", 10)])).1.map fun a => requestStatus a 200)
      = List.replicate 11 200 := by
  decide

/-- Claim C10: a `POST /market/ohlc` request with a correct admin token and
a valid session whose broker call raises any exception is handled by the
route's first `except` clause: the token cache is cleared (both fields
`None`, token file deleted) and the client receives 401 "Session expired.
Please log in again."; the second `except` clause (400 "Could not fetch
OHLC") is unreachable — exception dispatch always selects the first,
catch-all clause — and afterwards every session-gated route answers 401
without contacting the broker until a new session is established. -/
theorem C10_ohlc_error_clears_session (e : Env) (m : String)
    (hadm : e.hdr = some e.cfg)
    (hval : e.st.cache.is_valid e.dateOf e.now = true) :
    (get_ohlc e.cfg e.hdr e.st e.dateOf e.now e.ohlcBody (.error m)
        = ({ status := 401, detail := "Session expired. Please log in again." },
           some (BrokerCall.getOhlc e.ohlcBody.instruments), PState.empty)) ∧
    (dispatchExcept ohlcExceptClauses m = some (sessionExpiredLong, true)) ∧
    (∀ (e' : Env) (r : RouteId), e'.st = PState.empty → e'.hdr = some e'.cfg →
      r.requiresSession = true →
      runRoute e' r = ({ status := 401, detail := sessionDetailOf r }, none, PState.empty)) := by
  refine ⟨?_, rfl, ?_⟩
  · simp [get_ohlc, requireAdmin, hadm, hval, dispatchExcept, ohlcExceptClauses,
      sessionExpiredLong, PState.clear]
  · intro e' r hst hadm' hses
    have hval' : e'.st.cache.is_valid e'.dateOf e'.now = false := by rw [hst]; rfl
    rw [runRoute_session_gate e' r hses hadm' hval', hst]

/-- Claim C10 witness: a concrete OHLC request with valid admin token and
session whose broker call raises clears the token state and is answered 401
with the long session-expired message. -/
theorem C10_witness :
    get_ohlc baseEnv.cfg baseEnv.hdr baseEnv.st baseEnv.dateOf baseEnv.now baseEnv.ohlcBody
        (.error "boom")
      = ({ status := 401, detail := "Session expired. Please log in again." },
         some (BrokerCall.getOhlc baseEnv.ohlcBody.instruments), PState.empty) :=
  (C10_ohlc_error_clears_session baseEnv "boom" rfl (by decide)).1

end MStock
